import Mathlib

/-!
Verification of the external data access layer of the tourism app:
the resilient fetcher with retry/backoff, the response normalizer, the
endpoint clients, the statistics aggregator and the recommendation
resolver.  Each definition is a shallow embedding of the corresponding
TypeScript function; network responses are supplied by an oracle
(attempt number to outcome), the process environment by an explicit
record, and JavaScript numbers by Nat / rationals.
-/

namespace TourSpec

/-- Truthiness of an optional JS string: undefined/null and the empty
string are falsy; a truthy value is kept. -/
def jsTruthy : Option String → Option String
  | some s => if s = "" then none else some s
  | none => none

/-- Does the first list start with the second list as a leading run. -/
def startsWithList : List Char → List Char → Bool
  | [], _ => true
  | _ :: _, [] => false
  | a :: as, b :: bs => a == b && startsWithList as bs

/-- Does the list contain the pattern as a contiguous run. -/
def hasSubList (pat : List Char) : List Char → Bool
  | [] => pat.isEmpty
  | c :: rest => startsWithList pat (c :: rest) || hasSubList pat rest

/-- Model of JavaScript String.prototype.includes. -/
def strIncludes (s pat : String) : Bool :=
  hasSubList pat.data s.data

/-- Embedding of the TourApiError class from src/lib/api/tour-api.ts.
The originalError payload is dropped: no claim inspects it. -/
structure TourApiError where
  message : String
  statusCode : Option Nat
deriving Repr, DecidableEq

/-- The two environment variables read by getApiKey. -/
structure Env where
  tourApiKey : Option String
  nextPublicTourApiKey : Option String
deriving Repr, DecidableEq

/-- Embedding of getApiKey (src/lib/api/tour-api.ts lines 47-62).
The isServer flag models (typeof window === "undefined"); the JS
short-circuit serverKey || publicKey is truthiness based, so an empty
string also falls through. -/
def getApiKey (isServer : Bool) (env : Env) : Except TourApiError String :=
  let serverKey := if isServer then env.tourApiKey else none
  match (jsTruthy serverKey).orElse (fun _ => jsTruthy env.nextPublicTourApiKey) with
  | some k => .ok k
  | none =>
    .error ⟨"Tour API key is missing. Please set TOUR_API_KEY or NEXT_PUBLIC_TOUR_API_KEY environment variable.", none⟩

/-- Single item or array: the provider serializes a one-item result as a
bare object (interface ApiResponse, item : T | T[]). -/
inductive SingleOrArray (T : Type) where
  | single (t : T)
  | arr (ts : List T)
deriving Repr, DecidableEq

/-- Body of the provider envelope.  The TS optional chain
data.response?.body?.items?.item is collapsed into one Option: item is
none when items or items.item is absent/null. -/
structure ApiBody (T : Type) where
  item : Option (SingleOrArray T)
  totalCount : Option Nat
  pageNo : Option Nat
  numOfRows : Option Nat
deriving Repr, DecidableEq

/-- Provider envelope (interface ApiResponse of src/lib/types/tour.ts). -/
structure ApiResponse (T : Type) where
  body : ApiBody T
deriving Repr, DecidableEq

/-- Outcome of one network attempt: a transport-level exception or an
HTTP response with status and (already JSON-parsed) body. -/
inductive FetchOutcome (T : Type) where
  | netErr (msg : String)
  | response (status : Nat) (data : ApiResponse T)

/-- Observable trace of one fetchWithRetry run: how many attempts were
made, the sleeps performed (in order, in ms), and the final result. -/
structure RetryTrace (T : Type) where
  attempts : Nat
  sleeps : List Nat
  result : Except TourApiError (Nat × ApiResponse T)
deriving Repr

/-- Loop body of fetchWithRetry (src/lib/api/tour-api.ts lines 110-181).
remaining counts the loop iterations still allowed (maxRetries + 1 -
attempt); n counts the attempts already made and sleeps accumulates the
delays in reverse.  A 4xx response throws a TourApiError which the catch
block rethrows at once; a 5xx response sleeps 2^attempt * 1000 ms and
retries while attempts remain; a network error follows the same backoff
policy, and exhausting it falls through to the final throw. -/
def fetchLoop (oracle : Nat → FetchOutcome T) (maxRetries : Nat) :
    Nat → Nat → Nat → List Nat → RetryTrace T
  | 0, _, n, sleeps =>
    -- unreachable when started with remaining = maxRetries + 1: mirrors
    -- the post-loop throw with lastError still null
    ⟨n, sleeps.reverse,
      .error ⟨"API request failed after " ++ toString maxRetries ++ " retries: undefined", none⟩⟩
  | r + 1, attempt, n, sleeps =>
    match oracle attempt with
    | .response s data =>
      if 400 ≤ s ∧ s < 500 then
        ⟨n + 1, sleeps.reverse,
          .error ⟨"API request failed with status " ++ toString s, some s⟩⟩
      else if 500 ≤ s then
        if attempt < maxRetries then
          fetchLoop oracle maxRetries r (attempt + 1) (n + 1) (2 ^ attempt * 1000 :: sleeps)
        else
          ⟨n + 1, sleeps.reverse,
            .error ⟨"API request failed with status " ++ toString s ++ " after "
              ++ toString maxRetries ++ " retries", some s⟩⟩
      else
        ⟨n + 1, sleeps.reverse, .ok (s, data)⟩
    | .netErr m =>
      if attempt < maxRetries then
        fetchLoop oracle maxRetries r (attempt + 1) (n + 1) (2 ^ attempt * 1000 :: sleeps)
      else
        ⟨n + 1, sleeps.reverse,
          .error ⟨"API request failed after " ++ toString maxRetries ++ " retries: " ++ m, none⟩⟩

/-- Embedding of fetchWithRetry: run the retry loop from attempt 0. -/
def fetchWithRetry (oracle : Nat → FetchOutcome T) (maxRetries : Nat) : RetryTrace T :=
  fetchLoop oracle maxRetries (maxRetries + 1) 0 0 []

/-- Response.ok of the Fetch API: status in [200, 300). -/
def responseOk (s : Nat) : Bool :=
  200 ≤ s && s < 300

/-- Embedding of parseApiResponse (lines 187-195): extract
body.items.item, throwing when it is absent/null. -/
def parseApiResponse (data : ApiResponse T) : Except TourApiError (SingleOrArray T) :=
  match data.body.item with
  | some it => .ok it
  | none => .error ⟨"Invalid API response: items.item is missing", none⟩

/-- Embedding of normalizeToArray (lines 200-202). -/
def normalizeToArray : SingleOrArray T → List T
  | .single t => [t]
  | .arr ts => ts

/-- Result of the shared per-endpoint prelude (buildUrl then
fetchWithRetry): url construction reads the credential first, so a
missing key fails before any network attempt. -/
structure EndpointFetch (T : Type) where
  attempts : Nat
  sleeps : List Nat
  result : Except TourApiError (Nat × ApiResponse T)
deriving Repr

/-- Shared prelude of every endpoint client: buildUrl (which calls
getCommonParams, which calls getApiKey) and then fetchWithRetry.  The
query-string assembly itself carries no claim-relevant behavior and is
not modelled further. -/
def runFetch (env : Env) (isServer : Bool) (oracle : Nat → FetchOutcome T)
    (maxRetries : Nat) : EndpointFetch T :=
  match getApiKey isServer env with
  | .error e => ⟨0, [], .error e⟩
  | .ok _ =>
    let t := fetchWithRetry oracle maxRetries
    ⟨t.attempts, t.sleeps, t.result⟩

/-- Tour item of list endpoints (interface TourItem).  Fields the access
layer never reads (addresses, images, coordinates, ...) are elided. -/
structure TourItem where
  contentid : String
  contenttypeid : String
  areacode : String
  title : String
deriving Repr, DecidableEq

/-- Detail-lookup result (interface TourDetail); presentation-only
optional fields are elided.  areacode is optional in the source. -/
structure TourDetail where
  contentid : String
  contenttypeid : String
  title : String
  areacode : Option String
deriving Repr, DecidableEq

/-- Intro-lookup result (interface TourIntro); the endpoint logic never
reads the per-type optional fields, so only the ids are kept. -/
structure TourIntro where
  contentid : String
  contenttypeid : String
deriving Repr, DecidableEq

/-- Image-lookup result (interface TourImage); optional fields elided. -/
structure TourImage where
  contentid : String
  originimgurl : Option String
deriving Repr, DecidableEq

/-- Pet-tour-lookup result (interface PetTourInfo); optional fields
elided. -/
structure PetTourInfo where
  contentid : String
  contenttypeid : String
deriving Repr, DecidableEq

/-- Area code entry (interface AreaCode); the optional rnum is elided. -/
structure AreaCode where
  code : String
  name : String
deriving Repr, DecidableEq

/-- Embedding of getDetailCommon (src/lib/api/tour-api.ts lines 382-420).
The catch block rethrows every TourApiError unchanged and only wraps
non-TourApiError exceptions, which do not arise in this model (JSON
parsing is folded into the oracle), so it is the identity here. -/
def getDetailCommon (env : Env) (isServer : Bool)
    (oracle : Nat → FetchOutcome TourDetail) (contentId : String) :
    Except TourApiError TourDetail :=
  match (runFetch env isServer oracle 3).result with
  | .error e => .error e
  | .ok (status, data) =>
    if !(responseOk status) then
      .error ⟨"Failed to fetch detail common: status " ++ toString status, some status⟩
    else
      match parseApiResponse data with
      | .error e => .error e
      | .ok it =>
        match normalizeToArray it with
        | [] => .error ⟨"Tour detail not found for contentId: " ++ contentId, some 404⟩
        | x :: _ => .ok x

/-- Embedding of getDetailIntro (lines 433-471); same shape as
getDetailCommon. -/
def getDetailIntro (env : Env) (isServer : Bool)
    (oracle : Nat → FetchOutcome TourIntro) (contentId : String) :
    Except TourApiError TourIntro :=
  match (runFetch env isServer oracle 3).result with
  | .error e => .error e
  | .ok (status, data) =>
    if !(responseOk status) then
      .error ⟨"Failed to fetch detail intro: status " ++ toString status, some status⟩
    else
      match parseApiResponse data with
      | .error e => .error e
      | .ok it =>
        match normalizeToArray it with
        | [] => .error ⟨"Tour intro not found for contentId: " ++ contentId, some 404⟩
        | x :: _ => .ok x

/-- Embedding of getDetailImage (lines 485-532).  The try block is
computed first; the catch block converts a TourApiError whose message
contains "items.item is missing" to an empty array and rethrows every
other TourApiError. -/
def getDetailImage (env : Env) (isServer : Bool)
    (oracle : Nat → FetchOutcome TourImage) :
    Except TourApiError (List TourImage) :=
  let att : Except TourApiError (List TourImage) :=
    match (runFetch env isServer oracle 3).result with
    | .error e => .error e
    | .ok (status, data) =>
      if !(responseOk status) then
        if status = 404 then .ok []
        else .error ⟨"Failed to fetch detail image: status " ++ toString status, some status⟩
      else if data.body.item.isNone then .ok []
      else
        match parseApiResponse data with
        | .error e => .error e
        | .ok it => .ok (normalizeToArray it)
  match att with
  | .ok v => .ok v
  | .error e =>
    if strIncludes e.message "items.item is missing" then .ok []
    else .error e

/-- Embedding of getDetailPetTour (lines 545-604).  Unlike
getDetailImage, its catch block additionally converts a TourApiError
with statusCode 404 to null. -/
def getDetailPetTour (env : Env) (isServer : Bool)
    (oracle : Nat → FetchOutcome PetTourInfo) :
    Except TourApiError (Option PetTourInfo) :=
  let att : Except TourApiError (Option PetTourInfo) :=
    match (runFetch env isServer oracle 3).result with
    | .error e => .error e
    | .ok (status, data) =>
      if !(responseOk status) then
        if status = 404 then .ok none
        else .error ⟨"Failed to fetch pet tour info: status " ++ toString status, some status⟩
      else if data.body.item.isNone then .ok none
      else
        match parseApiResponse data with
        | .error e => .error e
        | .ok it =>
          match normalizeToArray it with
          | [] => .ok none
          | x :: _ => .ok (some x)
  match att with
  | .ok v => .ok v
  | .error e =>
    if strIncludes e.message "items.item is missing" then .ok none
    else if e.statusCode = some 404 then .ok none
    else .error e

/-- Query shape passed to getAreaBasedList by the recommendation code:
the claim-relevant parameters of GetAreaBasedListParams. -/
structure ListQuery where
  areaCode : Option String
  contentTypeId : Option String
  numOfRows : Nat
  pageNo : Nat
deriving Repr, DecidableEq

/-- List-endpoint result (interface ListResponse); the optional
pageNo/numOfRows echoes are elided. -/
structure ListResponse (T : Type) where
  items : List T
  totalCount : Nat
deriving Repr, DecidableEq

/-- Tier-1 recommendation query: same region and same category, up to 10
rows (src/unnamed/part_003, the recommendation block of page.tsx). -/
def tier1Query (d : TourDetail) : ListQuery :=
  ⟨d.areacode, some d.contenttypeid, 10, 1⟩

/-- Tier-2 recommendation query: same category only, up to 10 rows. -/
def tier2Query (d : TourDetail) : ListQuery :=
  ⟨none, some d.contenttypeid, 10, 1⟩

/-- Embedding of the recommendation cascade of PlaceDetailContent
(src/unnamed/part_003 lines 142-196).  getAreaBasedList is abstracted
as fetch; none models a query whose try block threw.  Tier 1 runs only
when the subject has a truthy areacode; tier 2 runs only when fewer
than 6 items were selected and skips the subject and every tier-1
pick.  Every failure path leaves the accumulator unchanged, so the
resolver itself never throws. -/
def recommendFor (d : TourDetail)
    (fetch : ListQuery → Option (ListResponse TourItem)) : List TourItem :=
  let recs1 : List TourItem :=
    if (jsTruthy d.areacode).isSome then
      match fetch (tier1Query d) with
      | some res => (res.items.filter (fun it => it.contentid != d.contentid)).take 6
      | none => []
    else []
  if recs1.length < 6 then
    match fetch (tier2Query d) with
    | some res =>
      recs1 ++ (res.items.filter (fun it =>
        it.contentid != d.contentid &&
          !(recs1.any (fun x => x.contentid == it.contentid)))).take (6 - recs1.length)
    | none => recs1
  else recs1

/-- Items the tier-1 query contributes before filtering: empty when the
subject has no truthy region or when the query failed. -/
def tier1Items (d : TourDetail)
    (fetch : ListQuery → Option (ListResponse TourItem)) : List TourItem :=
  if (jsTruthy d.areacode).isSome then
    ((fetch (tier1Query d)).map ListResponse.items).getD []
  else []

/-- Items the tier-2 query contributes before filtering: empty when the
query failed. -/
def tier2Items (d : TourDetail)
    (fetch : ListQuery → Option (ListResponse TourItem)) : List TourItem :=
  ((fetch (tier2Query d)).map ListResponse.items).getD []

/-- Tier-1 selection: drop the subject, take up to 6. -/
def tier1Sel (d : TourDetail)
    (fetch : ListQuery → Option (ListResponse TourItem)) : List TourItem :=
  ((tier1Items d fetch).filter (fun it => it.contentid != d.contentid)).take 6

/-- Tier-2 selection: drop the subject and every tier-1 pick, take just
enough to fill up to 6 in total. -/
def tier2Sel (d : TourDetail)
    (fetch : ListQuery → Option (ListResponse TourItem)) : List TourItem :=
  ((tier2Items d fetch).filter (fun it =>
    it.contentid != d.contentid &&
      !((tier1Sel d fetch).any (fun x => x.contentid == it.contentid)))).take
    (6 - (tier1Sel d fetch).length)

/-- Region statistics entry (interface RegionStats). -/
structure RegionStats where
  code : String
  name : String
  count : Nat
deriving Repr, DecidableEq

/-- Content type entry of the fixed in-process enumeration
(CONTENT_TYPES of src/lib/types/stats.ts). -/
structure ContentType where
  id : String
  name : String
deriving Repr, DecidableEq

/-- Embedding of getAllContentTypes: Object.values over CONTENT_TYPES,
whose integer-like keys enumerate in ascending numeric order. -/
def getAllContentTypes : List ContentType :=
  [⟨"12", "관광지"⟩, ⟨"14", "문화시설"⟩, ⟨"15", "축제/행사"⟩, ⟨"25", "여행코스"⟩,
   ⟨"28", "레포츠"⟩, ⟨"32", "숙박"⟩, ⟨"38", "쇼핑"⟩, ⟨"39", "음식점"⟩]

/-- Per-type count before the percentage pass (the Omit of TypeStats
used inside getTypeStats). -/
structure TypeCount where
  contentTypeId : String
  typeName : String
  count : Nat
deriving Repr, DecidableEq

/-- Type statistics entry (interface TypeStats); the JS float percentage
is modelled as a rational. -/
structure TypeStats where
  contentTypeId : String
  typeName : String
  count : Nat
  percentage : ℚ
deriving Repr, DecidableEq

/-- Math.round on a rational: round half toward positive infinity,
matching JavaScript. -/
def jsRound (q : ℚ) : ℤ :=
  ⌊q + 1 / 2⌋

/-- Embedding of getRegionStats (src/lib/api/stats-api.ts lines 27-82).
The initial getAreaCode call is abstracted as the given list; query maps
a region code to the totalCount of its one-row getAreaBasedList call, or
none when that call threw (the per-region catch returns null).  The
nulls are filtered out and an error is thrown only when nothing
survived. -/
def getRegionStats (areaCodes : List AreaCode) (query : String → Option Nat) :
    Except TourApiError (List RegionStats) :=
  let results : List (Option RegionStats) :=
    areaCodes.map (fun area => (query area.code).map (fun c => ⟨area.code, area.name, c⟩))
  let validResults := results.reduceOption
  if validResults.length = 0 then
    .error ⟨"Failed to get region stats: All area queries failed", none⟩
  else
    .ok validResults

/-- Embedding of getTypeStats (src/lib/api/stats-api.ts lines 91-154).
query maps a content type id to the totalCount of its one-row
getAreaBasedList call, or none when that call threw.  Percentages are
computed only after the successful counts are collected. -/
def getTypeStats (query : String → Option Nat) :
    Except TourApiError (List TypeStats) :=
  let results : List (Option TypeCount) :=
    getAllContentTypes.map (fun t => (query t.id).map (fun c => ⟨t.id, t.name, c⟩))
  let validResults := results.reduceOption
  if validResults.length = 0 then
    .error ⟨"Failed to get type stats: All content type queries failed", none⟩
  else
    let total := (validResults.map TypeCount.count).sum
    .ok (validResults.map (fun r =>
      ⟨r.contentTypeId, r.typeName, r.count,
        if 0 < total then
          ((jsRound (((r.count : ℚ) / (total : ℚ)) * 100 * 10) : ℚ) / 10)
        else 0⟩))

/-- Descending-by-key comparison: the ordering realized by the JS
comparator (a, b) => b.count - a.count. -/
def jsByDesc (key : α → Nat) (a b : α) : Prop :=
  key b ≤ key a

instance (key : α → Nat) : DecidableRel (jsByDesc key) :=
  fun a b => Nat.decLe (key b) (key a)

instance (key : α → Nat) : IsTotal α (jsByDesc key) :=
  ⟨fun a b => Nat.le_total (key b) (key a)⟩

instance (key : α → Nat) : IsTrans α (jsByDesc key) :=
  ⟨fun _ _ _ h1 h2 => Nat.le_trans h2 h1⟩

/-- Statistics summary (interface StatsSummary); the wall-clock
lastUpdated field is outside the model. -/
structure StatsSummary where
  totalCount : Nat
  topRegions : List RegionStats
  topTypes : List TypeStats
deriving Repr, DecidableEq

/-- Embedding of getStatsSummary (src/lib/api/stats-api.ts lines
163-205) applied to the two already-joined fan-out results.  Array
.sort with the comparator (a, b) => b.count - a.count is, per ES2019, a
stable sort and is modelled by the stable insertionSort; slice(0, 3) is
take 3. -/
def getStatsSummary (regionStats : List RegionStats) (typeStats : List TypeStats) :
    StatsSummary :=
  let totalCount := (typeStats.map TypeStats.count).sum
  let topRegions := (regionStats.insertionSort (jsByDesc RegionStats.count)).take 3
  let topTypes := (typeStats.insertionSort (jsByDesc TypeStats.count)).take 3
  ⟨totalCount, topRegions, topTypes⟩

/-- Modelled from the spec: the order "by descending count, ties broken
by the original iteration order" on index-tagged entries.  It is
antisymmetric and total, so a list sorted by it is unique regardless of
the sorting algorithm. -/
def specPairRel (key : α → Nat) (a b : Nat × α) : Prop :=
  key b.2 < key a.2 ∨ (key a.2 = key b.2 ∧ a.1 ≤ b.1)

instance (key : α → Nat) : DecidableRel (specPairRel key) :=
  fun a b =>
    inferInstanceAs (Decidable (key b.2 < key a.2 ∨ (key a.2 = key b.2 ∧ a.1 ≤ b.1)))

/-- Modelled from the spec: sort by count descending with ties broken by
original position, algorithm-independently, by tagging each entry with
its index and sorting under the total order specPairRel. -/
def specStableDescBy (key : α → Nat) (l : List α) : List α :=
  ((List.enumFrom 0 l).insertionSort (specPairRel key)).map Prod.snd

/-- Modelled from the spec: the top 3 regions by descending count, ties
broken by the original iteration order. -/
def specTopRegions (l : List RegionStats) : List RegionStats :=
  (specStableDescBy RegionStats.count l).take 3

/-- Modelled from the spec: the top 3 types by descending count, ties
broken by the original iteration order. -/
def specTopTypes (l : List TypeStats) : List TypeStats :=
  (specStableDescBy TypeStats.count l).take 3

/-- Every attempt up to maxRetries yields a 5xx response. -/
def all5xx (oracle : Nat → FetchOutcome T) (maxRetries : Nat) : Prop :=
  ∀ k, k ≤ maxRetries → ∃ s data, oracle k = .response s data ∧ 500 ≤ s

/-- Status of the outcome of a given attempt (0 for a network error). -/
def statusAt (oracle : Nat → FetchOutcome T) (k : Nat) : Nat :=
  match oracle k with
  | .response s _ => s
  | .netErr _ => 0

/-- Envelope with an absent body.items.item. -/
def emptyBody (T : Type) : ApiResponse T :=
  ⟨⟨none, none, none, none⟩⟩

/-- Envelope with the given body.items.item. -/
def bodyWith (it : Option (SingleOrArray T)) : ApiResponse T :=
  ⟨⟨it, none, none, none⟩⟩

/-- Oracle that answers every attempt with the same response. -/
def constOracle (s : Nat) (data : ApiResponse T) : Nat → FetchOutcome T :=
  fun _ => .response s data

/-- Environment with only the server-side key set. -/
def envOk : Env := ⟨some "key", none⟩

/-- Environment with both keys set, to observe precedence. -/
def envBoth : Env := ⟨some "server-key", some "public-key"⟩

/-- Environment with neither key set. -/
def envNone : Env := ⟨none, none⟩

/-- Subject item of the recommendation scenario: region 1, category 12. -/
def dW : TourDetail := ⟨"S", "12", "subject", some "1"⟩

/-- List item of the recommendation scenario. -/
def mkItem (cid : String) : TourItem := ⟨cid, "12", "1", cid⟩

/-- Query results of the recommendation scenario: 4 items share region
and category, 10 items share the category alone (two of them already in
tier 1 and one of them the subject itself). -/
def fW : ListQuery → Option (ListResponse TourItem) := fun q =>
  if q = tier1Query dW then
    some ⟨[mkItem "a1", mkItem "a2", mkItem "a3", mkItem "a4"], 4⟩
  else if q = tier2Query dW then
    some ⟨[mkItem "a1", mkItem "a2", mkItem "b1", mkItem "b2", mkItem "b3",
           mkItem "b4", mkItem "b5", mkItem "b6", mkItem "b7", mkItem "S"], 10⟩
  else none

/-- Category-count scenario of the spec: three categories answer with
counts 10, 0 and 30; the rest fail. -/
def c6query : String → Option Nat := fun id =>
  if id = "12" then some 10 else if id = "14" then some 0
  else if id = "15" then some 30 else none

/-- Expected category statistics of the c6query scenario. -/
def c6stats : List TypeStats :=
  [⟨"12", "관광지", 10, 25⟩, ⟨"14", "문화시설", 0, 0⟩, ⟨"15", "축제/행사", 30, 75⟩]

/-- Region scenario: three regions, one of which fails. -/
def c7areas : List AreaCode := [⟨"1", "서울"⟩, ⟨"2", "부산"⟩, ⟨"3", "제주"⟩]

/-- Region query of the c7areas scenario: region 2 fails. -/
def c7query : String → Option Nat := fun code =>
  if code = "2" then none else some 7

/-- Detail fixtures for the first-item claims. -/
def dA : TourDetail := ⟨"100", "12", "first", none⟩

/-- Second detail fixture, silently discarded by getDetailCommon. -/
def dB : TourDetail := ⟨"200", "14", "second", none⟩

/-- Intro fixtures for the first-item claims. -/
def iA : TourIntro := ⟨"100", "12"⟩

/-- Second intro fixture, silently discarded by getDetailIntro. -/
def iB : TourIntro := ⟨"200", "14"⟩

/-- Pet-info fixtures for the first-item claims. -/
def pA : PetTourInfo := ⟨"100", "12"⟩

/-- Second pet-info fixture, silently discarded by getDetailPetTour. -/
def pB : PetTourInfo := ⟨"200", "14"⟩

/-- Helper: a first attempt with a status below 400 returns at once. -/
theorem fetchWithRetry_first_ok (oracle : Nat → FetchOutcome T) (maxRetries s : Nat)
    (data : ApiResponse T) (h0 : oracle 0 = .response s data) (hs : s < 400) :
    fetchWithRetry oracle maxRetries = ⟨1, [], .ok (s, data)⟩ := by
  simp only [fetchWithRetry, fetchLoop, h0]
  rw [if_neg (by omega), if_neg (by omega)]
  simp

/-- C2: a response with status in [400,500) makes fetchWithRetry fail at
once with a TourApiError carrying that status, after exactly one network
attempt and no sleep, whatever maxRetries is. -/
theorem fetchWithRetry_client_error (oracle : Nat → FetchOutcome T)
    (maxRetries s : Nat) (data : ApiResponse T)
    (h4 : 400 ≤ s) (h5 : s < 500) (h0 : oracle 0 = .response s data) :
    fetchWithRetry oracle maxRetries =
      ⟨1, [], .error ⟨"API request failed with status " ++ toString s, some s⟩⟩ := by
  simp only [fetchWithRetry, fetchLoop, h0]
  rw [if_pos ⟨h4, h5⟩]
  simp

/-- Witness for C2 at status 418 and maxRetries 7. -/
theorem fetchWithRetry_client_error_witness :
    400 ≤ 418 ∧ 418 < 500 ∧
    fetchWithRetry (constOracle 418 (emptyBody TourImage)) 7 =
      ⟨1, [], .error ⟨"API request failed with status 418", some 418⟩⟩ := by
  refine ⟨by norm_num, by norm_num, ?_⟩
  rw [fetchWithRetry_client_error (constOracle 418 (emptyBody TourImage)) 7 418
    (emptyBody TourImage) (by norm_num) (by norm_num) rfl]
  rfl

/-- Helper: a 5xx attempt with budget remaining sleeps and retries. -/
theorem fetchLoop_step (oracle : Nat → FetchOutcome T) (maxRetries r attempt n : Nat)
    (sleeps : List Nat) (s : Nat) (data : ApiResponse T)
    (hor : oracle attempt = .response s data) (hs : 500 ≤ s) (hlt : attempt < maxRetries) :
    fetchLoop oracle maxRetries (r + 1) attempt n sleeps =
      fetchLoop oracle maxRetries r (attempt + 1) (n + 1) (2 ^ attempt * 1000 :: sleeps) := by
  simp only [fetchLoop, hor]
  rw [if_neg (by omega), if_pos (by omega), if_pos hlt]

/-- Helper: the retry loop under an all-5xx oracle consumes its whole
budget, sleeping the exponential backoff delays in order. -/
theorem fetchLoop_all5xx (oracle : Nat → FetchOutcome T) (maxRetries : Nat)
    (h : all5xx oracle maxRetries) :
    ∀ (r attempt n : Nat) (sleeps : List Nat), attempt + r = maxRetries →
      fetchLoop oracle maxRetries (r + 1) attempt n sleeps =
        ⟨n + r + 1,
         sleeps.reverse ++ (List.range' attempt r).map (fun k => 2 ^ k * 1000),
         .error ⟨"API request failed with status " ++ toString (statusAt oracle maxRetries)
           ++ " after " ++ toString maxRetries ++ " retries",
           some (statusAt oracle maxRetries)⟩⟩ := by
  intro r
  induction r with
  | zero =>
    intro attempt n sleeps hat
    obtain ⟨s, data, hor, hs⟩ := h attempt (by omega)
    have hat' : attempt = maxRetries := by omega
    simp only [fetchLoop, hor]
    rw [if_neg (by omega), if_pos (by omega), if_neg (by omega)]
    subst hat'
    simp [statusAt, hor]
  | succ r ih =>
    intro attempt n sleeps hat
    obtain ⟨s, data, hor, hs⟩ := h attempt (by omega)
    rw [fetchLoop_step oracle maxRetries (r + 1) attempt n sleeps s data hor hs (by omega)]
    rw [ih (attempt + 1) (n + 1) (2 ^ attempt * 1000 :: sleeps) (by omega)]
    simp [List.range'_succ, List.append_assoc]
    omega

/-- C3: when every attempt answers 5xx, fetchWithRetry makes exactly
maxRetries + 1 attempts, sleeps 2 ^ attempt * 1000 ms between
consecutive attempts, and ends with a terminal error carrying the last
status and mentioning the exhausted retry budget. -/
theorem fetchWithRetry_server_error_retries (oracle : Nat → FetchOutcome T)
    (maxRetries : Nat) (h : all5xx oracle maxRetries) :
    fetchWithRetry oracle maxRetries =
      ⟨maxRetries + 1,
       (List.range maxRetries).map (fun k => 2 ^ k * 1000),
       .error ⟨"API request failed with status " ++ toString (statusAt oracle maxRetries)
         ++ " after " ++ toString maxRetries ++ " retries",
         some (statusAt oracle maxRetries)⟩⟩ ∧
    500 ≤ statusAt oracle maxRetries := by
  constructor
  · rw [fetchWithRetry, fetchLoop_all5xx oracle maxRetries h maxRetries 0 0 [] (by omega)]
    simp [List.range_eq_range']
  · obtain ⟨s, data, hor, hs⟩ := h maxRetries (le_refl _)
    simpa [statusAt, hor] using hs

/-- Witness for C3 at maxRetries 3: 4 attempts, sleeps of 1000, 2000 and
4000 ms, and a terminal 500 error. -/
theorem fetchWithRetry_server_error_retries_witness :
    all5xx (constOracle 500 (emptyBody TourImage)) 3 ∧
    fetchWithRetry (constOracle 500 (emptyBody TourImage)) 3 =
      ⟨4, [1000, 2000, 4000],
       .error ⟨"API request failed with status 500 after 3 retries", some 500⟩⟩ := by
  have hall : all5xx (constOracle 500 (emptyBody TourImage)) 3 :=
    fun k _ => ⟨500, emptyBody TourImage, rfl, by norm_num⟩
  refine ⟨hall, ?_⟩
  rw [(fetchWithRetry_server_error_retries (constOracle 500 (emptyBody TourImage)) 3 hall).1]
  rfl

/-- C4: with an absent body.items.item both optional endpoints return
their soft empty value, and on an upstream 404 getDetailPetTour returns
null — but getDetailImage does NOT return the empty array: the 4xx
branch of fetchWithRetry throws before the (response.status === 404)
check can run, and getDetailImage has no 404 catch clause, so the
TourApiError with status 404 escapes to the caller. -/
theorem optional_endpoints_absent_and_404 :
    getDetailImage envOk true (constOracle 200 (emptyBody TourImage)) = .ok [] ∧
    getDetailPetTour envOk true (constOracle 200 (emptyBody PetTourInfo)) = .ok none ∧
    getDetailPetTour envOk true (constOracle 404 (emptyBody PetTourInfo)) = .ok none ∧
    getDetailImage envOk true (constOracle 404 (emptyBody TourImage)) =
      .error ⟨"API request failed with status 404", some 404⟩ :=
  ⟨rfl, rfl, rfl, rfl⟩

/-- C5: a syntactically valid response that normalizes to zero items
makes getDetailCommon throw a not-found TourApiError with status 404. -/
theorem getDetailCommon_zero_items (env : Env) (isServer : Bool)
    (oracle : Nat → FetchOutcome TourDetail) (contentId k : String)
    (s : Nat) (data : ApiResponse TourDetail)
    (hkey : getApiKey isServer env = .ok k)
    (h0 : oracle 0 = .response s data)
    (hok : responseOk s = true)
    (hempty : data.body.item = some (.arr [])) :
    getDetailCommon env isServer oracle contentId =
      .error ⟨"Tour detail not found for contentId: " ++ contentId, some 404⟩ := by
  have hs : s < 400 := by
    simp only [responseOk, Bool.and_eq_true, decide_eq_true_eq] at hok
    omega
  simp [getDetailCommon, runFetch, hkey,
    fetchWithRetry_first_ok oracle 3 s data h0 hs, hok,
    parseApiResponse, hempty, normalizeToArray]

/-- Witness for C5: a 200 response whose item is an empty array. -/
theorem getDetailCommon_zero_items_witness :
    getApiKey true envOk = .ok "key" ∧
    constOracle 200 (bodyWith (T := TourDetail) (some (.arr []))) 0 =
      .response 200 (bodyWith (some (.arr []))) ∧
    responseOk 200 = true ∧
    (bodyWith (T := TourDetail) (some (.arr []))).body.item = some (.arr []) ∧
    getDetailCommon envOk true (constOracle 200 (bodyWith (some (.arr [])))) "125266" =
      .error ⟨"Tour detail not found for contentId: 125266", some 404⟩ := by
  refine ⟨rfl, rfl, rfl, rfl, ?_⟩
  rw [getDetailCommon_zero_items envOk true (constOracle 200 (bodyWith (some (.arr []))))
    "125266" "key" 200 (bodyWith (some (.arr []))) rfl rfl rfl rfl]
  rfl

/-- C10: when body.items.item is an array with more than one element,
each single-entity endpoint returns exactly the first element and
silently discards the rest. -/
theorem single_entity_first_item (env : Env) (isServer : Bool) (k cid : String)
    (hkey : getApiKey isServer env = .ok k)
    (oc : Nat → FetchOutcome TourDetail) (sc : Nat) (dc : ApiResponse TourDetail)
    (x y : TourDetail) (restc : List TourDetail)
    (hc0 : oc 0 = .response sc dc) (hcok : responseOk sc = true)
    (hcitem : dc.body.item = some (.arr (x :: y :: restc)))
    (oi : Nat → FetchOutcome TourIntro) (si : Nat) (di : ApiResponse TourIntro)
    (xi yi : TourIntro) (resti : List TourIntro)
    (hi0 : oi 0 = .response si di) (hiok : responseOk si = true)
    (hiitem : di.body.item = some (.arr (xi :: yi :: resti)))
    (op : Nat → FetchOutcome PetTourInfo) (sp : Nat) (dp : ApiResponse PetTourInfo)
    (xp yp : PetTourInfo) (restp : List PetTourInfo)
    (hp0 : op 0 = .response sp dp) (hpok : responseOk sp = true)
    (hpitem : dp.body.item = some (.arr (xp :: yp :: restp))) :
    getDetailCommon env isServer oc cid = .ok x ∧
    getDetailIntro env isServer oi cid = .ok xi ∧
    getDetailPetTour env isServer op = .ok (some xp) := by
  have hsc : sc < 400 := by
    simp only [responseOk, Bool.and_eq_true, decide_eq_true_eq] at hcok
    omega
  have hsi : si < 400 := by
    simp only [responseOk, Bool.and_eq_true, decide_eq_true_eq] at hiok
    omega
  have hsp : sp < 400 := by
    simp only [responseOk, Bool.and_eq_true, decide_eq_true_eq] at hpok
    omega
  refine ⟨?_, ?_, ?_⟩
  · simp [getDetailCommon, runFetch, hkey,
      fetchWithRetry_first_ok oc 3 sc dc hc0 hsc, hcok,
      parseApiResponse, hcitem, normalizeToArray]
  · simp [getDetailIntro, runFetch, hkey,
      fetchWithRetry_first_ok oi 3 si di hi0 hsi, hiok,
      parseApiResponse, hiitem, normalizeToArray]
  · simp [getDetailPetTour, runFetch, hkey,
      fetchWithRetry_first_ok op 3 sp dp hp0 hsp, hpok,
      parseApiResponse, hpitem, normalizeToArray]

/-- Witness for C10: two-element arrays; the first fixture is returned,
the second discarded. -/
theorem single_entity_first_item_witness :
    getApiKey true envOk = .ok "key" ∧
    getDetailCommon envOk true (constOracle 200 (bodyWith (some (.arr [dA, dB])))) "100" = .ok dA ∧
    getDetailIntro envOk true (constOracle 200 (bodyWith (some (.arr [iA, iB])))) "100" = .ok iA ∧
    getDetailPetTour envOk true (constOracle 200 (bodyWith (some (.arr [pA, pB])))) = .ok (some pA) := by
  refine ⟨rfl, ?_⟩
  have h := single_entity_first_item envOk true "key" "100" rfl
    (constOracle 200 (bodyWith (some (.arr [dA, dB])))) 200 (bodyWith (some (.arr [dA, dB])))
    dA dB [] rfl rfl rfl
    (constOracle 200 (bodyWith (some (.arr [iA, iB])))) 200 (bodyWith (some (.arr [iA, iB])))
    iA iB [] rfl rfl rfl
    (constOracle 200 (bodyWith (some (.arr [pA, pB])))) 200 (bodyWith (some (.arr [pA, pB])))
    pA pB [] rfl rfl rfl
  exact h

/-- C9: the server-side key takes precedence over the public fallback,
and with both variables absent every endpoint call fails with the
configuration TourApiError (no status code) before any network attempt
is made. -/
theorem apiKey_precedence_config (T : Type) (env : Env) (isServer : Bool) (k : String)
    (oracle : Nat → FetchOutcome T) (maxRetries : Nat) :
    (env.tourApiKey = some k → k ≠ "" → getApiKey true env = .ok k) ∧
    (env.tourApiKey = none → env.nextPublicTourApiKey = none →
      (runFetch env isServer oracle maxRetries).attempts = 0 ∧
      (runFetch env isServer oracle maxRetries).result =
        .error ⟨"Tour API key is missing. Please set TOUR_API_KEY or NEXT_PUBLIC_TOUR_API_KEY environment variable.", none⟩) := by
  constructor
  · intro h1 h2
    simp [getApiKey, jsTruthy, h1, h2, Option.orElse]
  · intro h1 h2
    have hkey : getApiKey isServer env =
        .error ⟨"Tour API key is missing. Please set TOUR_API_KEY or NEXT_PUBLIC_TOUR_API_KEY environment variable.", none⟩ := by
      cases isServer <;> simp [getApiKey, jsTruthy, h1, h2, Option.orElse]
    simp [runFetch, hkey]

/-- Witness for C9: precedence with both variables set, configuration
failure with both absent. -/
theorem apiKey_precedence_config_witness :
    (envBoth.tourApiKey = some "server-key" ∧ "server-key" ≠ "" ∧
      getApiKey true envBoth = .ok "server-key") ∧
    (envNone.tourApiKey = none ∧ envNone.nextPublicTourApiKey = none ∧
      (runFetch envNone true (constOracle 200 (emptyBody TourDetail)) 3).attempts = 0 ∧
      (runFetch envNone true (constOracle 200 (emptyBody TourDetail)) 3).result =
        .error ⟨"Tour API key is missing. Please set TOUR_API_KEY or NEXT_PUBLIC_TOUR_API_KEY environment variable.", none⟩) := by
  constructor
  · exact ⟨rfl, by decide,
      (apiKey_precedence_config TourDetail envBoth true "server-key"
        (constOracle 200 (emptyBody TourDetail)) 3).1 rfl (by decide)⟩
  · refine ⟨rfl, rfl, ?_, ?_⟩
    · exact ((apiKey_precedence_config TourDetail envNone true "server-key"
        (constOracle 200 (emptyBody TourDetail)) 3).2 rfl rfl).1
    · exact ((apiKey_precedence_config TourDetail envNone true "server-key"
        (constOracle 200 (emptyBody TourDetail)) 3).2 rfl rfl).2

/-- C6: every percentage getTypeStats emits is computed from the sum of
all collected counts as round(count / sum * 1000) / 10, and a zero sum
yields percentage 0 everywhere with no division performed. -/
theorem getTypeStats_percentages (query : String → Option Nat) (stats : List TypeStats)
    (h : getTypeStats query = .ok stats) :
    (∀ s ∈ stats,
      s.percentage =
        if 0 < (stats.map TypeStats.count).sum then
          ((jsRound ((s.count : ℚ) / ((stats.map TypeStats.count).sum : ℚ) * 1000) : ℚ) / 10)
        else 0) ∧
    ((stats.map TypeStats.count).sum = 0 → ∀ s ∈ stats, s.percentage = 0) := by
  simp only [getTypeStats] at h
  split at h
  · exact absurd h (by simp)
  · rw [Except.ok.injEq] at h
    subst h
    set valid :=
      (getAllContentTypes.map (fun t => (query t.id).map (fun c => TypeCount.mk t.id t.name c))).reduceOption with hvalid
    have hcounts :
        ((valid.map fun r =>
            TypeStats.mk r.contentTypeId r.typeName r.count
              (if 0 < (valid.map TypeCount.count).sum then
                ((jsRound (((r.count : ℚ) / ((valid.map TypeCount.count).sum : ℚ)) * 100 * 10) : ℚ) / 10)
              else 0)).map TypeStats.count)
          = valid.map TypeCount.count := by
      simp [List.map_map, Function.comp]
    constructor
    · intro s hs
      obtain ⟨r, hr, rfl⟩ := List.mem_map.1 hs
      rw [hcounts]
      by_cases hpos : 0 < (valid.map TypeCount.count).sum
      · rw [if_pos hpos]
        simp only [if_pos hpos]
        congr 2
        ring_nf
      · rw [if_neg hpos]
        simp only [if_neg hpos]
    · intro h0 s hs
      obtain ⟨r, hr, rfl⟩ := List.mem_map.1 hs
      rw [hcounts] at h0
      simp only [if_neg (by omega : ¬ 0 < (valid.map TypeCount.count).sum)]

/-- Witness for C6: counts 10, 0 and 30 yield percentages 25.0, 0.0 and
75.0. -/
theorem getTypeStats_percentages_witness :
    getTypeStats c6query = .ok c6stats ∧
    (∀ s ∈ c6stats,
      s.percentage =
        if 0 < (c6stats.map TypeStats.count).sum then
          ((jsRound ((s.count : ℚ) / ((c6stats.map TypeStats.count).sum : ℚ) * 1000) : ℚ) / 10)
        else 0) := by
  have h : getTypeStats c6query = .ok c6stats := by
    simp [getTypeStats, getAllContentTypes, c6query, c6stats, List.reduceOption, jsRound]
    norm_num [Int.floor_eq_iff]
  exact ⟨h, (getTypeStats_percentages c6query c6stats h).1⟩

/-- Helper: successes plus failures account for every region queried. -/
theorem region_length_split (query : String → Option Nat) :
    ∀ areaCodes : List AreaCode,
      ((areaCodes.map fun area =>
          (query area.code).map fun c => RegionStats.mk area.code area.name c).reduceOption).length
        + (areaCodes.filter fun a => (query a.code).isNone).length = areaCodes.length
  | [] => rfl
  | a :: areaCodes => by
    cases hq : query a.code <;>
      simp [List.reduceOption, List.filterMap_cons, hq, List.filter_cons] <;>
      have := region_length_split query areaCodes <;>
      simp [List.reduceOption] at this <;>
      omega

/-- C7: getRegionStats returns exactly the successful entries whenever
at least one region query succeeded, and throws exactly when every one
of them failed. -/
theorem getRegionStats_partial_failure (areaCodes : List AreaCode)
    (query : String → Option Nat) :
    ((areaCodes.filter fun a => (query a.code).isNone).length < areaCodes.length →
      getRegionStats areaCodes query =
        .ok (areaCodes.filterMap fun a =>
          (query a.code).map fun c => RegionStats.mk a.code a.name c) ∧
      (areaCodes.filterMap fun a =>
          (query a.code).map fun c => RegionStats.mk a.code a.name c).length
        = areaCodes.length - (areaCodes.filter fun a => (query a.code).isNone).length) ∧
    ((areaCodes.filter fun a => (query a.code).isNone).length = areaCodes.length →
      getRegionStats areaCodes query =
        .error ⟨"Failed to get region stats: All area queries failed", none⟩) := by
  have hsplit := region_length_split query areaCodes
  have hred :
      (areaCodes.map fun area =>
        (query area.code).map fun c => RegionStats.mk area.code area.name c).reduceOption
      = areaCodes.filterMap fun a => (query a.code).map fun c => RegionStats.mk a.code a.name c := by
    simp [List.reduceOption, List.filterMap_map, Function.comp]
  constructor
  · intro hlt
    constructor
    · rw [getRegionStats, hred, if_neg (by rw [hred] at hsplit; omega)]
    · rw [hred] at hsplit
      omega
  · intro heq
    rw [getRegionStats, hred, if_pos (by rw [hred] at hsplit; omega)]

/-- Witness for C7: of three regions one query fails; the two successes
are returned in order. -/
theorem getRegionStats_partial_failure_witness :
    (c7areas.filter fun a => (c7query a.code).isNone).length < c7areas.length ∧
    getRegionStats c7areas c7query = .ok [⟨"1", "서울", 7⟩, ⟨"3", "제주", 7⟩] := by
  refine ⟨by decide, ?_⟩
  rw [((getRegionStats_partial_failure c7areas c7query).1 (by decide)).1]
  rfl

/-- Helper: every index produced by enumFrom n is at least n. -/
theorem le_fst_of_mem_enumFrom {α : Type} :
    ∀ (l : List α) (n : Nat) (y : Nat × α), y ∈ List.enumFrom n l → n ≤ y.1
  | [], _, _, h => by simp [List.enumFrom] at h
  | a :: l, n, y, h => by
    rcases (by simpa [List.enumFrom] using h : y = (n, a) ∨ y ∈ List.enumFrom (n + 1) l) with h1 | h2
    · simp [h1]
    · have := le_fst_of_mem_enumFrom l (n + 1) y h2
      omega

/-- Helper: inserting an index-tagged element whose index is minimal
commutes with forgetting the indices: the spec order specPairRel and the
comparator order jsByDesc take the same branch at every comparison. -/
theorem map_snd_orderedInsert {α : Type} (key : α → Nat) (x : Nat × α) :
    ∀ m : List (Nat × α), (∀ y ∈ m, x.1 ≤ y.1) →
      (m.orderedInsert (specPairRel key) x).map Prod.snd
        = (m.map Prod.snd).orderedInsert (jsByDesc key) x.2
  | [], _ => rfl
  | y :: m, h => by
    have hxy : x.1 ≤ y.1 := h y (List.mem_cons_self y m)
    by_cases hc : jsByDesc key x.2 y.2
    · have hp : specPairRel key x y := by
        simp only [jsByDesc] at hc
        simp only [specPairRel]
        omega
      simp only [List.orderedInsert, List.map_cons, if_pos hp, if_pos hc, List.map_cons]
    · have hp : ¬ specPairRel key x y := by
        simp only [jsByDesc] at hc
        simp only [specPairRel]
        omega
      simp only [List.orderedInsert, List.map_cons, if_neg hp, if_neg hc, List.map_cons]
      rw [map_snd_orderedInsert key x m (fun z hz => h z (List.mem_cons_of_mem y hz))]

/-- Helper: the stable sort of the raw list equals the index-tagged sort
under the antisymmetric spec order with the tags forgotten. -/
theorem map_snd_insertionSort {α : Type} (key : α → Nat) :
    ∀ (l : List α) (n : Nat),
      ((List.enumFrom n l).insertionSort (specPairRel key)).map Prod.snd
        = l.insertionSort (jsByDesc key)
  | [], _ => rfl
  | a :: l, n => by
    have hmem : ∀ y ∈ (List.enumFrom (n + 1) l).insertionSort (specPairRel key),
        (n, a).1 ≤ y.1 := by
      intro y hy
      have hy2 : y ∈ List.enumFrom (n + 1) l := (List.mem_insertionSort _).1 hy
      have := le_fst_of_mem_enumFrom l (n + 1) y hy2
      simp only []
      omega
    show ((((n, a) :: List.enumFrom (n + 1) l).insertionSort (specPairRel key)).map Prod.snd) = _
    rw [show (((n, a) :: List.enumFrom (n + 1) l).insertionSort (specPairRel key))
        = ((List.enumFrom (n + 1) l).insertionSort (specPairRel key)).orderedInsert
            (specPairRel key) (n, a) from rfl]
    rw [map_snd_orderedInsert key (n, a) _ hmem, map_snd_insertionSort key l (n + 1)]
    rfl

/-- C8: the summary derives totalCount from the category counts alone,
and its top-3 slices realize the spec order: count descending, ties
broken by the original iteration position (stability), and each slice is
itself sorted by descending count. -/
theorem getStatsSummary_derivation (rs : List RegionStats) (ts : List TypeStats) :
    (getStatsSummary rs ts).totalCount = (ts.map TypeStats.count).sum ∧
    (getStatsSummary rs ts).topRegions = specTopRegions rs ∧
    (getStatsSummary rs ts).topTypes = specTopTypes ts ∧
    List.Sorted (jsByDesc RegionStats.count) (getStatsSummary rs ts).topRegions ∧
    List.Sorted (jsByDesc TypeStats.count) (getStatsSummary rs ts).topTypes := by
  refine ⟨rfl, ?_, ?_, ?_, ?_⟩
  · show (rs.insertionSort (jsByDesc RegionStats.count)).take 3 = _
    rw [specTopRegions, specStableDescBy, map_snd_insertionSort RegionStats.count rs 0]
  · show (ts.insertionSort (jsByDesc TypeStats.count)).take 3 = _
    rw [specTopTypes, specStableDescBy, map_snd_insertionSort TypeStats.count ts 0]
  · exact List.Pairwise.sublist (List.take_sublist 3 _)
      (List.sorted_insertionSort (jsByDesc RegionStats.count) rs)
  · exact List.Pairwise.sublist (List.take_sublist 3 _)
      (List.sorted_insertionSort (jsByDesc TypeStats.count) ts)

/-- Helper: the resolver output decomposes into the tier-1 selection
followed by the tier-2 fill, also through every failure path. -/
theorem recommendFor_eq (d : TourDetail)
    (fetch : ListQuery → Option (ListResponse TourItem)) :
    recommendFor d fetch = tier1Sel d fetch ++ tier2Sel d fetch := by
  have hrecs : (if (jsTruthy d.areacode).isSome then
      match fetch (tier1Query d) with
      | some res => (res.items.filter fun it => it.contentid != d.contentid).take 6
      | none => []
      else []) = tier1Sel d fetch := by
    unfold tier1Sel tier1Items
    by_cases hreg : (jsTruthy d.areacode).isSome
    · rw [if_pos hreg, if_pos hreg]
      cases fetch (tier1Query d) <;> simp
    · rw [if_neg hreg, if_neg hreg]
      simp
  simp only [recommendFor]
  rw [hrecs]
  by_cases hlen : (tier1Sel d fetch).length < 6
  · rw [if_pos hlen]
    unfold tier2Sel tier2Items
    cases hf2 : fetch (tier2Query d)
    · simp
    · simp
  · rw [if_neg hlen]
    unfold tier2Sel
    rw [show 6 - (tier1Sel d fetch).length = 0 by omega]
    simp

/-- C1: the resolver yields at most 6 items, never the subject, with
content ids pairwise distinct whenever each provider page has distinct
ids, and the output is the tier-1 selection (same region and category,
subject removed, capped at 6) followed by tier-2 fill-up items (same
category, subject and tier-1 picks removed, only enough to reach 6);
a failed tier contributes the empty list and the resolver is total. -/
theorem recommendFor_cascade (d : TourDetail)
    (fetch : ListQuery → Option (ListResponse TourItem))
    (h1 : ((tier1Items d fetch).map TourItem.contentid).Nodup)
    (h2 : ((tier2Items d fetch).map TourItem.contentid).Nodup) :
    recommendFor d fetch = tier1Sel d fetch ++ tier2Sel d fetch ∧
    (recommendFor d fetch).length ≤ 6 ∧
    (∀ it ∈ recommendFor d fetch, it.contentid ≠ d.contentid) ∧
    ((recommendFor d fetch).map TourItem.contentid).Nodup := by
  have heq := recommendFor_eq d fetch
  have ht1 : List.Sublist (tier1Sel d fetch) (tier1Items d fetch) :=
    (List.take_sublist _ _).trans (List.filter_sublist _)
  have ht2 : List.Sublist (tier2Sel d fetch) (tier2Items d fetch) :=
    (List.take_sublist _ _).trans (List.filter_sublist _)
  have hn1 : ((tier1Sel d fetch).map TourItem.contentid).Nodup :=
    List.Nodup.sublist (ht1.map TourItem.contentid) h1
  have hn2 : ((tier2Sel d fetch).map TourItem.contentid).Nodup :=
    List.Nodup.sublist (ht2.map TourItem.contentid) h2
  have hdisj : List.Disjoint ((tier1Sel d fetch).map TourItem.contentid)
      ((tier2Sel d fetch).map TourItem.contentid) := by
    intro c hc1 hc2
    obtain ⟨x, hx, hxc⟩ := List.mem_map.1 hc1
    obtain ⟨y, hy, hyc⟩ := List.mem_map.1 hc2
    have hpred := (List.mem_filter.1 ((List.take_sublist _ _).subset hy)).2
    rw [Bool.and_eq_true] at hpred
    have hany := hpred.2
    rw [Bool.not_eq_true'] at hany
    rw [List.any_eq_false] at hany
    exact hany x hx (by rw [beq_iff_eq, hxc, hyc])
  refine ⟨heq, ?_, ?_, ?_⟩
  · rw [heq, List.length_append]
    have l1 : (tier1Sel d fetch).length ≤ 6 := by
      unfold tier1Sel
      simp [List.length_take]
    have l2 : (tier2Sel d fetch).length ≤ 6 - (tier1Sel d fetch).length := by
      unfold tier2Sel
      simp only [List.length_take]
      omega
    omega
  · intro it hit
    rw [heq] at hit
    rcases List.mem_append.1 hit with h | h
    · have hpred := (List.mem_filter.1 ((List.take_sublist _ _).subset h)).2
      simpa [bne_iff_ne] using hpred
    · have hpred := (List.mem_filter.1 ((List.take_sublist _ _).subset h)).2
      rw [Bool.and_eq_true] at hpred
      simpa [bne_iff_ne] using hpred.1
  · rw [heq, List.map_append]
    exact List.Nodup.append hn1 hn2 hdisj

/-- Witness for C1, the spec scenario: 4 same-region-and-category items
followed by 2 category-only fill items, 6 in total, no duplicates, no
subject. -/
theorem recommendFor_cascade_witness :
    ((tier1Items dW fW).map TourItem.contentid).Nodup ∧
    ((tier2Items dW fW).map TourItem.contentid).Nodup ∧
    recommendFor dW fW = tier1Sel dW fW ++ tier2Sel dW fW ∧
    (recommendFor dW fW).map TourItem.contentid = ["a1", "a2", "a3", "a4", "b1", "b2"] := by
  have h1 : ((tier1Items dW fW).map TourItem.contentid).Nodup := by decide
  have h2 : ((tier2Items dW fW).map TourItem.contentid).Nodup := by decide
  exact ⟨h1, h2, (recommendFor_cascade dW fW h1 h2).1, by decide⟩

end TourSpec
